import Mathlib

/-!
Verification development for the WAF log-ingestion and attack-classification
pipeline (`log_processor/log_processor.py` and `log_processor/attack_detection.py`).

The Python source is shallowly embedded: each Python helper becomes an
executable Lean definition working over explicit record types; Python `dict`
payloads become records with `Option` fields (a missing key is `none`);
Python exceptions that the source catches locally become `Option`/`Except`
results.  String scanning helpers (`in`, `split`, `replace`, the few concrete
regular expressions the source uses) are implemented over `List Char`.
ASCII inputs are assumed where Python's unicode behaviour could differ
(digits, upper-casing): the audit-log payloads the pipeline consumes are ASCII.
-/

deriving instance DecidableEq for Except

namespace Waf

/-- The single-quote character, used by the anomaly-score extraction
(`match.split("Value: \x60")[1].split("...")[0]` in the source splits on it). -/
def squote : Char := '\''

/-! ### Python-style string primitives (over `List Char`) -/

/-- Model of `strStarts pat s`: `s` begins with `pat`. -/
def strStarts : List Char → List Char → Bool
  | [], _ => true
  | _ :: _, [] => false
  | p :: ps, c :: cs => p == c && strStarts ps cs

/-- Model of `strHasL pat s`: `pat` occurs somewhere in `s` (Python `pat in s`). -/
def strHasL (pat : List Char) : List Char → Bool
  | [] => strStarts pat []
  | c :: cs => strStarts pat (c :: cs) || strHasL pat cs

/-- Python `pat in s` on `String`s. -/
def strHas (s pat : String) : Bool := strHasL pat.data s.data

/-- Split at the first occurrence of `pat`: returns the part before and the
part after the occurrence, or `none` when `pat` does not occur. -/
def splitFirstL (pat : List Char) : List Char → Option (List Char × List Char)
  | [] => if strStarts pat [] then some ([], []) else none
  | c :: cs =>
    if strStarts pat (c :: cs) then some ([], List.drop pat.length (c :: cs))
    else match splitFirstL pat cs with
      | some (pre, post) => some (c :: pre, post)
      | none => none

/-- Python `s.split(pat)[1]` for a `pat` known to occur at least once:
the segment strictly between the first and the second occurrence of `pat`
(to the end of the string when `pat` occurs only once). -/
def segAfterFirst (pat : List Char) (s : List Char) : Option (List Char) :=
  match splitFirstL pat s with
  | none => none
  | some (_, post) =>
    match splitFirstL pat post with
    | some (mid, _) => some mid
    | none => some post

/-- Python `s.split(pat)[0]`: everything before the first occurrence of `pat`
(`s` itself when `pat` does not occur). -/
def segBeforeFirst (pat : List Char) (s : List Char) : List Char :=
  match splitFirstL pat s with
  | some (pre, _) => pre
  | none => s

/-- One fuel-indexed step list for `replaceAll`; fuel is the input length, and
every step consumes at least one input character, so fuel never runs out. -/
def replAux (pat rep : List Char) : Nat → List Char → List Char
  | 0, rest => rest
  | _ + 1, [] => []
  | n + 1, c :: cs =>
    if pat ≠ [] && strStarts pat (c :: cs) then
      rep ++ replAux pat rep n (List.drop (pat.length - 1) cs)
    else c :: replAux pat rep n cs

/-- Python `s.replace(pat, rep)`: replace every (non-overlapping, left-to-right)
occurrence of `pat` by `rep`. -/
def replaceAll (s pat rep : String) : String :=
  ⟨replAux pat.data rep.data s.data.length s.data⟩

/-- Last path segment, Python `rule_file.split('/')[-1]`: everything after
the last `/` (the whole string when there is no `/`). -/
def lastSeg (s : List Char) : List Char :=
  (s.reverse.takeWhile (fun c => c != '/')).reverse

/-- Python `s.upper()` (ASCII). -/
def upperStr (s : String) : String := String.mk (s.data.map Char.toUpper)

/-- Python truthiness of an optional string field (`if x:`). -/
def pyTruthy : Option String → Bool
  | none => false
  | some s => s ≠ ""

/-- Digit-list value. -/
def digitsVal (ds : List Char) : Nat :=
  ds.foldl (fun n c => n * 10 + (c.toNat - 48)) 0

/-- Python `int(s)` on an ASCII decimal string: optional surrounding
whitespace, optional sign, at least one digit; `none` models `ValueError`. -/
def pyInt (s : String) : Option Int :=
  let t := (s.data.dropWhile Char.isWhitespace).reverse.dropWhile Char.isWhitespace
  match t.reverse with
  | '-' :: ds => if ds ≠ [] && ds.all Char.isDigit then some (-(Int.ofNat (digitsVal ds))) else none
  | '+' :: ds => if ds ≠ [] && ds.all Char.isDigit then some (Int.ofNat (digitsVal ds)) else none
  | ds => if ds ≠ [] && ds.all Char.isDigit then some (Int.ofNat (digitsVal ds)) else none

/-- Python `s.isdigit()` (ASCII): non-empty and all decimal digits. -/
def pyIsDigit (s : String) : Bool := s.data ≠ [] && s.data.all Char.isDigit

/-! ### Data model

One parsed audit-log line (`transaction` object).  Fields that the source
reads with `dict.get` are `Option`s.  The `severity` field of a rule-match
is the one place where the source's behaviour depends on the JSON *type* of
the value, so it is modelled with a small JSON-value type. -/

/-- A JSON scalar as stored in a rule-match `severity` field. -/
inductive JVal where
  | str (s : String)
  | num (n : Int)
  | null
  | arr
  deriving DecidableEq

/-- The `details` object of one rule-match message.  `mtch` models the
`match` key (a Lean keyword). -/
structure MsgDetails where
  ruleId : Option String := none
  file : Option String := none
  severity : Option JVal := none
  data : Option String := none
  mtch : Option String := none
  deriving DecidableEq

/-- One element of `transaction.messages`. -/
structure Msg where
  message : Option String := none
  details : MsgDetails := {}
  deriving DecidableEq

/-- Model of `transaction.request`. -/
structure RequestR where
  method : Option String := none
  uri : Option String := none
  headers : List (String × String) := []
  body : Option String := none
  deriving DecidableEq

/-- Model of `transaction.response`. -/
structure ResponseR where
  http_code : Option Int := none
  headers : List (String × String) := []
  body : Option String := none
  deriving DecidableEq

/-- One parsed log line's `transaction` object. -/
structure Transaction where
  unique_id : Option String := none
  time_stamp : Option String := none
  client_ip : Option String := none
  client_port : Option Int := none
  host_ip : Option String := none
  host_port : Option Int := none
  request : RequestR := {}
  response : ResponseR := {}
  messages : List Msg := []
  deriving DecidableEq

/-- Python `headers.get(k)` over the association-list model of a dict. -/
def headerGet (hs : List (String × String)) (k : String) : Option String :=
  match hs.find? (fun p => p.1 == k) with
  | some p => some p.2
  | none => none

/-! ### Attack-type classification (`AttackDetectionEngine._classify_attack_type`) -/

/-- Model of `ATTACK_RULE_PATTERNS` in source (dict-insertion) order.  Every entry is a
metacharacter-free regular expression, so `re.search` is plain substring
containment. -/
def ATTACK_RULE_PATTERNS : List (String × String) := [
  ("XSS", "REQUEST-941-APPLICATION-ATTACK-XSS"),
  ("SQLI", "REQUEST-942-APPLICATION-ATTACK-SQLI"),
  ("LFI", "REQUEST-930-APPLICATION-ATTACK-LFI"),
  ("RFI", "REQUEST-931-APPLICATION-ATTACK-RFI"),
  ("RCE", "REQUEST-932-APPLICATION-ATTACK-RCE"),
  ("PHP", "REQUEST-933-APPLICATION-ATTACK-PHP"),
  ("NODEJS", "REQUEST-934-APPLICATION-ATTACK-NODEJS"),
  ("JAVA", "REQUEST-944-APPLICATION-ATTACK-JAVA"),
  ("SCANNER", "REQUEST-913-SCANNER-DETECTION"),
  ("SESSION", "REQUEST-943-APPLICATION-ATTACK-SESSION"),
  ("PROTOCOL", "REQUEST-920-PROTOCOL-ENFORCEMENT"),
  ("MULTIPART", "REQUEST-922-MULTIPART-ATTACK"),
  ("XML", "REQUEST-923-REQUEST-DATA"),
  ("XXE", "REQUEST-912-DOS-PROTECTION")]

/-- Known evaluation/scoring rule ids, not actual attack detections. -/
def EVALUATION_RULES : List String := ["949110", "949111", "980130", "980140", "980170"]

/-- Model of `BLOCKING_RULE_ID`. -/
def BLOCKING_RULE_ID : String := "949110"

/-- Model of `re.search(r"PREF\d+.*-ATTACK-", s)` as a Bool, for a literal head `pref`
(`"REQUEST-"`, `"CUSTOM-"`, `"LOCAL-"`, `"SITE-"`): some position starts with
`pref` followed by a digit, with `-ATTACK-` occurring after that digit
(`.*` admits everything, the log fields contain no newlines). -/
def searchPrefAttack (pref : List Char) : List Char → Bool
  | [] => false
  | c :: cs =>
    (strStarts pref (c :: cs) &&
      (match List.drop pref.length (c :: cs) with
       | d :: ds => d.isDigit && strHasL "-ATTACK-".data ds
       | [] => false)) ||
    searchPrefAttack pref cs

/-- Member of the character class `[A-Z-]`. -/
def isAZDash (c : Char) : Bool := ('A' ≤ c && c ≤ 'Z') || c == '-'

/-- The capture of `-ATTACK-([A-Z-]+)` at the greedy (`.*`) match position:
the latest occurrence of `-ATTACK-` that is followed by at least one `[A-Z-]`
character, with the maximal such run as the group. -/
def lastAttackGrp : List Char → Option (List Char)
  | [] => none
  | c :: cs =>
    match lastAttackGrp cs with
    | some g => some g
    | none =>
      if strStarts "-ATTACK-".data (c :: cs) then
        let g := List.takeWhile isAZDash (List.drop 8 (c :: cs))
        if g == [] then none else some g
      else none

/-- Model of `re.search(r"PREF\d+.*-ATTACK-([A-Z-]+)", s).group(last)`: leftmost start
position (literal head, then a digit), then the greedy group in the remainder.
When the remainder admits no group no later start can either (the remainders
shrink), so falling through mirrors the regex engine's retry. -/
def extractGrp (pref : List Char) : List Char → Option (List Char)
  | [] => none
  | c :: cs =>
    if strStarts pref (c :: cs) then
      match List.drop pref.length (c :: cs) with
      | d :: ds =>
        if d.isDigit then
          match lastAttackGrp ds with
          | some g => some g
          | none => extractGrp pref cs
        else extractGrp pref cs
      | [] => extractGrp pref cs
    else extractGrp pref cs

/-- The alternation head of `(CUSTOM|LOCAL|SITE)-...` at one position. -/
def customHeadAt (s : List Char) : Option Nat :=
  if strStarts "CUSTOM-".data s then some 7
  else if strStarts "LOCAL-".data s then some 6
  else if strStarts "SITE-".data s then some 5
  else none

/-- Model of `re.search(r"(CUSTOM|LOCAL|SITE)-\d+.*-ATTACK-([A-Z-]+)", s).group(2)`. -/
def extractCustomGrp : List Char → Option (List Char)
  | [] => none
  | c :: cs =>
    match customHeadAt (c :: cs) with
    | some n =>
      (match List.drop n (c :: cs) with
       | d :: ds =>
         if d.isDigit then
           match lastAttackGrp ds with
           | some g => some g
           | none => extractCustomGrp cs
         else extractCustomGrp cs
       | [] => extractCustomGrp cs)
    | none => extractCustomGrp cs

/-- Model of `_classify_attack_type` on one rule filename. -/
def classifyAttackType (ruleFile : String) : Option String :=
  match ATTACK_RULE_PATTERNS.find? (fun p => strHas ruleFile p.2) with
  | some p => some p.1
  | none =>
    if searchPrefAttack "REQUEST-".data ruleFile.data then
      match extractGrp "REQUEST-".data ruleFile.data with
      | some g => some (replaceAll (replaceAll (String.mk g) ".conf" "") "-" "_")
      | none => some "UNKNOWN_ATTACK"
    else if searchPrefAttack "CUSTOM-".data ruleFile.data ||
            searchPrefAttack "LOCAL-".data ruleFile.data ||
            searchPrefAttack "SITE-".data ruleFile.data then
      match extractCustomGrp ruleFile.data with
      | some g => some (replaceAll (replaceAll ("CUSTOM_" ++ String.mk g) ".conf" "") "-" "_")
      | none => some "CUSTOM_ATTACK"
    else if strHas (upperStr ruleFile) "ATTACK" then some "ATTACK"
    else none

/-! ### Anomaly-score extraction -/

/-- The literal the source scans for in the `match` field. -/
def valuePat : String := "Value: `"

/-- The literal the source scans for in `message`/`data`. -/
def inboundPat : String := "Inbound Anomaly Score"

/-- Extraction from the `match` field:
`match.split(valuePat)[1].split(sq)[0]` (sq the single quote) guarded by
`valuePat in match`, then `int()`; any failure gives `none` (bare `except`). -/
def extractMatchVal (m : String) : Option Int :=
  if strHas m valuePat then
    match segAfterFirst valuePat.data m.data with
    | some seg => pyInt (String.mk (segBeforeFirst [squote] seg))
    | none => none
  else none

/-- Fallback extraction from the `data` field:
`data.split("Score ")[1].split(" ")[0]` guarded by `"Score " in data`,
then `int()`; any failure gives `none`. -/
def extractDataVal (d : String) : Option Int :=
  if strHas d "Score " then
    match segAfterFirst "Score ".data d.data with
    | some seg => pyInt (String.mk (segBeforeFirst [' '] seg))
    | none => none
  else none

/-- The anomaly score one message contributes in `_analyze_attack_indicators`
(the `if "Inbound Anomaly Score" in message / elif ... in data` chain);
`none` when the message leaves the running value unchanged. -/
def msgScoreInd (m : Msg) : Option Int :=
  if strHas (m.message.getD "") inboundPat then
    extractMatchVal (m.details.mtch.getD "")
  else if strHas (m.details.data.getD "") inboundPat then
    extractDataVal (m.details.data.getD "")
  else none

/-! ### `_analyze_attack_indicators` -/

/-- Severity contribution of one message: `details.get("severity", "0")` then
`int(severity) if severity.isdigit() else 0` inside
`except (ValueError, TypeError)`.  On a non-string value `.isdigit()` raises
`AttributeError`, which that handler does NOT catch, so the exception escapes
(modelled as `.error`). -/
def sevVal (sev : Option JVal) : Except Unit Int :=
  match sev.getD (.str "0") with
  | .str s => .ok (if pyIsDigit s then (pyInt s).getD 0 else 0)
  | _ => .error ()

/-- The `'ATTACK' in rule_file.upper() or 'SCANNER' ... or 'PROTOCOL' ...`
test of the violation check. -/
def fileMarkers (f : String) : Bool :=
  strHas (upperStr f) "ATTACK" || strHas (upperStr f) "SCANNER" ||
    strHas (upperStr f) "PROTOCOL"

/-- Loop state of `_analyze_attack_indicators`.  `attackTypes` is the Python
set in insertion order (deduplicated); its final enumeration order is applied
afterwards. -/
structure CoreAcc where
  attackTypes : List String := []
  ruleIds : List String := []
  ruleFiles : List String := []
  totalSeverity : Int := 0
  anomaly : Int := 0
  hasViol : Bool := false
  deriving DecidableEq

/-- Model of `set.add` on the insertion-order representative. -/
def setAdd (l : List String) (x : String) : List String :=
  if x ∈ l then l else l ++ [x]

/-- One iteration of the message loop in `_analyze_attack_indicators`. -/
def coreStep (acc : CoreAcc) (m : Msg) : Except Unit CoreAcc := do
  let ruleFile := (m.details.file).getD ""
  -- `if rule_id:` block — record the id, check the violation condition
  let acc :=
    match m.details.ruleId with
    | some rid =>
      if rid ≠ "" then
        { acc with
          ruleIds := acc.ruleIds ++ [rid],
          hasViol := acc.hasViol ||
            (!(EVALUATION_RULES.contains rid) && ruleFile ≠ "" && fileMarkers ruleFile) }
      else acc
    | none => acc
  -- `if rule_file:` block — record the file, classify on its last path segment
  let acc :=
    if ruleFile ≠ "" then
      let acc := { acc with ruleFiles := acc.ruleFiles ++ [ruleFile] }
      match classifyAttackType (String.mk (lastSeg ruleFile.data)) with
      | some ty => { acc with attackTypes := setAdd acc.attackTypes ty }
      | none => acc
    else acc
  -- severity block (the only step that can raise)
  let v ← sevVal m.details.severity
  let acc := { acc with totalSeverity := acc.totalSeverity + v }
  -- anomaly block
  let acc :=
    match msgScoreInd m with
    | some v => { acc with anomaly := max acc.anomaly v }
    | none => acc
  return acc

/-- The message loop. -/
def analyzeCoreAux : CoreAcc → List Msg → Except Unit CoreAcc
  | acc, [] => .ok acc
  | acc, m :: ms =>
    match coreStep acc m with
    | .ok acc2 => analyzeCoreAux acc2 ms
    | .error e => .error e

/-- The message loop of `_analyze_attack_indicators` from the empty state. -/
def analyzeCore (msgs : List Msg) : Except Unit CoreAcc := analyzeCoreAux {} msgs

/-- The `is_attack` decision, verbatim from the source:
identified types, or violations with score ≥ 5, or violations at all. -/
def isAttackOf (acc : CoreAcc) : Bool :=
  !acc.attackTypes.isEmpty || (acc.hasViol && decide (5 ≤ acc.anomaly)) || acc.hasViol

/-- The dict `_analyze_attack_indicators` returns. -/
structure AttackAnalysis where
  attack_types : List String
  rule_ids : List String
  rule_files : List String
  severity_score : Int
  anomaly_score : Int
  is_attack : Bool
  deriving DecidableEq

/-- A valid Python set enumeration: `list(set(l))` yields the deduplicated
elements of `l` in some (hash-seed dependent) order. -/
def EnumOk (enum : List String → List String) : Prop :=
  ∀ l : List String, (enum l).Perm l.dedup

/-- Model of `_analyze_attack_indicators`.  `enum` models the hash-based iteration
order of `list(attack_types)` and `list(set(rule_files))`; any function
satisfying `EnumOk` is a possible behaviour of one interpreter run. -/
def analyzeAttackIndicators (enum : List String → List String) (msgs : List Msg) :
    Except Unit AttackAnalysis := do
  let acc ← analyzeCore msgs
  return {
    attack_types := enum acc.attackTypes,
    rule_ids := acc.ruleIds,
    rule_files := enum acc.ruleFiles,
    severity_score := acc.totalSeverity,
    anomaly_score := acc.anomaly,
    is_attack := isAttackOf acc }

/-! ### `_analyze_blocking_status` -/

/-- Whether one message makes `has_attack_violations` true (the source's
if/elif chain).  The final SCANNER/PROTOCOL/MULTIPART branch is kept as
written: it sits behind the plain `elif rule_file:` branch and is therefore
unreachable in the source as well. -/
def blockViol (m : Msg) : Bool :=
  let ruleFile := (m.details.file).getD ""
  match m.details.ruleId with
  | none => false
  | some rid =>
    if rid ≠ "" && !(EVALUATION_RULES.contains rid) then
      if ruleFile ≠ "" && searchPrefAttack "REQUEST-".data ruleFile.data then true
      else if ruleFile ≠ "" then
        (searchPrefAttack "CUSTOM-".data ruleFile.data ||
         searchPrefAttack "LOCAL-".data ruleFile.data ||
         searchPrefAttack "SITE-".data ruleFile.data)
      else if ruleFile ≠ "" &&
              (strHas (upperStr ruleFile) "SCANNER" ||
               strHas (upperStr ruleFile) "PROTOCOL" ||
               strHas (upperStr ruleFile) "MULTIPART") then true
      else false
    else false

/-- The anomaly-score scan of `_analyze_blocking_status`: unlike the
indicator scan, each message consults the `match` field (behind the message
guard) AND the `data` fallback. -/
def blkAnomaly (msgs : List Msg) : Int :=
  msgs.foldl (fun acc m =>
    let acc :=
      if strHas (m.message.getD "") inboundPat then
        match extractMatchVal (m.details.mtch.getD "") with
        | some v => max acc v
        | none => acc
      else acc
    if strHas (m.details.data.getD "") inboundPat then
      match extractDataVal (m.details.data.getD "") with
      | some v => max acc v
      | none => acc
    else acc) 0

/-- Model of `_analyze_blocking_status`: the returned `is_blocked` flag. -/
def analyzeBlockingStatus (msgs : List Msg) (statusCode : Int) : Bool :=
  let hasBlockingRule := msgs.any (fun m => m.details.ruleId == some BLOCKING_RULE_ID)
  let hasAttackViolations := msgs.any blockViol
  let anomaly := blkAnomaly msgs
  if hasBlockingRule && decide (5 ≤ anomaly) then true
  else if hasAttackViolations && statusCode == 403 then true
  else false

/-! ### Timestamp parsing (`_parse_timestamp`) -/

/-- A parsed `datetime` value. -/
structure DateTimeR where
  year : Nat
  month : Nat
  day : Nat
  hour : Nat
  minute : Nat
  second : Nat
  deriving DecidableEq

/-- Python `s.lower()` (ASCII; strptime matches names case-insensitively). -/
def lowerStr (s : String) : String := String.mk (s.data.map Char.toLower)

/-- C-locale weekday abbreviations (lowercased). -/
def dayAbbrs : List String := ["mon", "tue", "wed", "thu", "fri", "sat", "sun"]

/-- C-locale month abbreviations (lowercased). -/
def monAbbrs : List String :=
  ["jan", "feb", "mar", "apr", "may", "jun", "jul", "aug", "sep", "oct", "nov", "dec"]

/-- Split at every occurrence of one character, keeping empty segments. -/
def splitChAux (t : Char) : List Char → List Char → List (List Char)
  | cur, [] => [cur.reverse]
  | cur, c :: cs =>
    if c == t then cur.reverse :: splitChAux t [] cs else splitChAux t (c :: cur) cs

/-- Split at every whitespace character, keeping empty segments. -/
def splitWsAux : List Char → List Char → List (List Char)
  | cur, [] => [cur.reverse]
  | cur, c :: cs =>
    if c.isWhitespace then cur.reverse :: splitWsAux [] cs
    else splitWsAux (c :: cur) cs

/-- A 1-or-2 digit numeric field (`%d`, `%H`, `%M`, `%S` consume at most two
digits and the field must be consumed entirely, the next format token being
whitespace or a literal). -/
def parse2Digits : List Char → Option Nat
  | [a] => if a.isDigit then some (a.toNat - 48) else none
  | [a, b] =>
    if a.isDigit && b.isDigit then some ((a.toNat - 48) * 10 + (b.toNat - 48)) else none
  | _ => none

/-- Model of `%Y`: exactly four digits. -/
def parseYear : List Char → Option Nat
  | [a, b, c, d] =>
    if a.isDigit && b.isDigit && c.isDigit && d.isDigit then
      some ((((a.toNat - 48) * 10 + (b.toNat - 48)) * 10 + (c.toNat - 48)) * 10 + (d.toNat - 48))
    else none
  | _ => none

/-- The `%H:%M:%S` field.  `%S` admits leap seconds 60/61 but `datetime`
construction rejects them, so the net bound is 59. -/
def parseTimeField (cs : List Char) : Option (Nat × Nat × Nat) :=
  match splitChAux ':' [] cs with
  | [h, m, s] => do
    let hv ← parse2Digits h
    let mv ← parse2Digits m
    let sv ← parse2Digits s
    if hv ≤ 23 && mv ≤ 59 && sv ≤ 59 then some (hv, mv, sv) else none
  | _ => none

/-- Gregorian leap year, as `datetime` validates dates. -/
def isLeap (y : Nat) : Bool := (y % 4 == 0 && y % 100 != 0) || y % 400 == 0

/-- Days in a month. -/
def daysInMonth (y m : Nat) : Nat :=
  if m == 2 then (if isLeap y then 29 else 28)
  else if m == 4 || m == 6 || m == 9 || m == 11 then 30
  else 31

/-- Model of `datetime.strptime(s, "%a %b %d %H:%M:%S %Y")` (e.g.
"Mon Aug 11 09:19:10 2025") followed by `datetime` range validation; `none`
models the caught `ValueError`.  Whitespace in the format matches a run of
whitespace; the weekday abbreviation must be valid but is not cross-checked
against the date (strptime does not). -/
def parseTsStr (s : String) : Option DateTimeR :=
  match s.data with
  | [] => none
  | c0 :: rest =>
    if c0.isWhitespace then none
    else match (c0 :: rest).getLast? with
    | none => none
    | some cl =>
      if cl.isWhitespace then none
      else match (splitWsAux [] (c0 :: rest)).filter (fun f => f ≠ []) with
      | [wd, mon, dayF, timeF, yearF] =>
        if dayAbbrs.contains (lowerStr (String.mk wd)) then
          match monAbbrs.findIdx? (fun a => a == lowerStr (String.mk mon)) with
          | none => none
          | some mi => do
            let d ← parse2Digits dayF
            let (hv, mv, sv) ← parseTimeField timeF
            let y ← parseYear yearF
            if 1 ≤ d && d ≤ 31 && 1 ≤ y && d ≤ daysInMonth y (mi + 1) then
              some ⟨y, mi + 1, d, hv, mv, sv⟩
            else none
        else none
      | _ => none

/-- Model of `_parse_timestamp`: a missing value (`None`) raises `TypeError` inside
`strptime`, caught alongside `ValueError` → `None`. -/
def parseTimestampM : Option String → Option DateTimeR
  | none => none
  | some s => parseTsStr s

/-! ### `analyze_log_entry` -/

/-- The dict `analyze_log_entry` returns (network info, request info, attack
analysis, blocking status, id, timestamp, raw payload). -/
structure AnalyzeOut where
  source_ip : String
  source_port : Option Int
  dest_ip : Option String
  dest_port : Option Int
  target_website : String
  client_ip : String
  method : Option String
  uri : Option String
  status_code : Int
  attack : AttackAnalysis
  is_blocked : Bool
  log_unique_id : Option String
  timestamp : Option DateTimeR
  raw_log : Transaction
  deriving DecidableEq

/-- Model of `analyze_log_entry`.  The catch-all `except Exception` turns the
severity-field `AttributeError` into `None`. -/
def analyzeLogEntry (enum : List String → List String) (tx : Transaction) :
    Option AnalyzeOut :=
  match analyzeAttackIndicators enum tx.messages with
  | .error _ => none
  | .ok attack =>
    some {
      source_ip := (tx.client_ip).getD "unknown",
      source_port := tx.client_port,
      dest_ip := tx.host_ip,
      dest_port := tx.host_port,
      target_website := (headerGet tx.request.headers "Host").getD "unknown",
      client_ip := (tx.client_ip).getD "unknown",
      method := tx.request.method,
      uri := tx.request.uri,
      status_code := (tx.response.http_code).getD 0,
      attack := attack,
      is_blocked := analyzeBlockingStatus tx.messages ((tx.response.http_code).getD 0),
      log_unique_id := tx.unique_id,
      timestamp := parseTimestampM tx.time_stamp,
      raw_log := tx }

/-! ### Event builder (`determine_severity`, `calculate_risk_score`,
`parse_log_entry` in `log_processor.py`) -/

/-- Model of `determine_severity`. -/
def determineSeverity (anomaly : Int) (isBlocked : Bool) (attackTypes : List String) :
    String :=
  if 100 ≤ anomaly || (isBlocked && decide (2 < attackTypes.length)) then "critical"
  else if 50 ≤ anomaly || (isBlocked && !attackTypes.isEmpty) then "high"
  else if 20 ≤ anomaly || !attackTypes.isEmpty then "medium"
  else "low"

/-- Model of `calculate_risk_score`.  Python computes in IEEE doubles; the source only
ever scales small integers by 2, 5, 15 and optionally 0.7, which `Rat`
represents exactly. -/
def calculateRiskScore (pd : AnalyzeOut) : Rat :=
  let base : Int := min (pd.attack.anomaly_score * 2) 50
  let score : Rat := (base : Rat)
  let score := score + (pd.attack.attack_types.length : Rat) * 15
  let score := score + (pd.attack.severity_score : Rat) * 5
  let score := if pd.is_blocked then score * (7 / 10 : Rat) else score
  min (100 : Rat) score

/-- A `waf_logs` row (legacy table; unique natural key `log_unique_id`). -/
structure WafLogR where
  log_unique_id : Option String
  timestamp : Option DateTimeR
  source_ip : String
  source_port : Option Int
  dest_ip : Option String
  dest_port : Option Int
  target_website : String
  method : Option String
  uri : Option String
  status_code : Int
  is_blocked : Bool
  is_attack : Bool
  attack_types : List String
  rule_ids : List String
  rule_files : List String
  severity_score : Int
  anomaly_score : Int
  raw_log : Transaction
  deriving DecidableEq

/-- A `security_events` row (unique key `event_id`). -/
structure SecurityEventR where
  event_id : String
  timestamp : Option DateTimeR
  source_ip : String
  source_port : Option Int
  destination_ip : Option String
  destination_port : Option Int
  target_website : String
  uri : Option String
  method : Option String
  status_code : Int
  user_agent : String
  attack_type : Option String
  severity : String
  is_attack : Bool
  is_blocked : Bool
  risk_score : Rat
  anomaly_score : Int
  rules_matched : List String
  rule_files : List String
  request_headers : List (String × String)
  request_body : String
  response_headers : List (String × String)
  response_body : String
  geo_location : Option Unit
  deriving DecidableEq

/-- The pair `parse_log_entry` returns: one legacy row and one new event,
to be written together. -/
structure BuiltRecords where
  wafLog : WafLogR
  securityEvent : SecurityEventR
  deriving DecidableEq

/-- Model of `parse_log_entry`: attack analysis, ingestion-boundary validation
(reject when `method` or `uri` is falsy), primary attack type, severity
bucket, risk score, and the two records.  `eventId` stands for the fresh
`uuid.uuid4()` value — a caller-supplied token independent of the log
content. -/
def parseLogEntry (enum : List String → List String) (eventId : String)
    (tx : Transaction) : Option BuiltRecords :=
  match analyzeLogEntry enum tx with
  | none => none
  | some pd =>
    if !(pyTruthy pd.method && pyTruthy pd.uri) then none
    else
      let attackType : Option String :=
        if !pd.attack.attack_types.isEmpty then pd.attack.attack_types.head?
        else if pd.attack.is_attack then
          some (if 10 ≤ pd.attack.anomaly_score then "HIGH_RISK"
                else if 5 ≤ pd.attack.anomaly_score then "SUSPICIOUS"
                else "ANOMALY")
        else none
      let requestHeaders := tx.request.headers
      let responseHeaders := tx.response.headers
      let severity := determineSeverity pd.attack.anomaly_score pd.is_blocked
        pd.attack.attack_types
      let riskScore := calculateRiskScore pd
      some {
        wafLog := {
          log_unique_id := pd.log_unique_id,
          timestamp := pd.timestamp,
          source_ip := pd.source_ip,
          source_port := pd.source_port,
          dest_ip := pd.dest_ip,
          dest_port := pd.dest_port,
          target_website := pd.target_website,
          method := pd.method,
          uri := pd.uri,
          status_code := pd.status_code,
          is_blocked := pd.is_blocked,
          is_attack := pd.attack.is_attack,
          attack_types := pd.attack.attack_types,
          rule_ids := pd.attack.rule_ids,
          rule_files := pd.attack.rule_files,
          severity_score := pd.attack.severity_score,
          anomaly_score := pd.attack.anomaly_score,
          raw_log := tx },
        securityEvent := {
          event_id := eventId,
          timestamp := pd.timestamp,
          source_ip := pd.source_ip,
          source_port := pd.source_port,
          destination_ip := pd.dest_ip,
          destination_port := pd.dest_port,
          target_website := pd.target_website,
          uri := pd.uri,
          method := pd.method,
          status_code := pd.status_code,
          user_agent := (headerGet requestHeaders "User-Agent").getD "",
          attack_type := attackType,
          severity := severity,
          is_attack := pd.attack.is_attack,
          is_blocked := pd.is_blocked,
          risk_score := riskScore,
          anomaly_score := pd.attack.anomaly_score,
          rules_matched := pd.attack.rule_ids,
          rule_files := pd.attack.rule_files,
          request_headers := requestHeaders,
          request_body := (tx.request.body).getD "",
          response_headers := responseHeaders,
          response_body := (tx.response.body).getD "",
          geo_location := none } }

/-! ### Line repairer (the two fix passes inside `process_new_logs`)

The three `re.sub` patterns the source uses are implemented as concrete
matchers with the regex engine's leftmost/greedy semantics; `subAll` walks
the string replacing every non-overlapping match. -/

/-- Length of the maximal prefix run of non-quote characters. -/
def nonQuoteRun : List Char → Nat
  | [] => 0
  | c :: cs => if c != '"' then 1 + nonQuoteRun cs else 0

/-- Length of the maximal prefix run of quote characters. -/
def quoteRun : List Char → Nat
  | [] => 0
  | c :: cs => if c == '"' then 1 + quoteRun cs else 0

/-- Length of the maximal prefix run of non-`]` characters. -/
def nonRBrackRun : List Char → Nat
  | [] => 0
  | c :: cs => if c != ']' then 1 + nonRBrackRun cs else 0

/-- Greedy tail of `[^"]*\\+"*\]`: the quantifiers force a non-quote run
ending in a backslash (longest first — smaller runs are tried only after
longer ones fail), then the maximal quote run, then `]`.  Returns the
consumed length. -/
def tailTryR1 (rest : List Char) : Nat → Option Nat
  | 0 => none
  | m + 1 =>
    if (rest.take (m + 1)).getLast? == some '\\' then
      let after := rest.drop (m + 1)
      let q := quoteRun after
      match after.drop q with
      | ']' :: _ => some (m + 1 + q + 1)
      | _ => tailTryR1 rest m
    else tailTryR1 rest m

/-- The literal head shared by the `components` patterns. -/
def r1Head : String := "\"components\":[\"OWASP_CRS/"

/-- The canonical replacement array. -/
def componentsCanon : String := "\"components\":[\"OWASP_CRS/4.17.1\"]"

/-- Match of `"components":\["OWASP_CRS/[^"]*\\+"*\]` at the head of `s`:
the consumed length, or `none`. -/
def matchR1At (s : List Char) : Option Nat :=
  if strStarts r1Head.data s then
    let rest := List.drop r1Head.data.length s
    match tailTryR1 rest (nonQuoteRun rest) with
    | some t => some (r1Head.data.length + t)
    | none => none
  else none

/-- The literal head of the aggressive pattern. -/
def r2Head : String := "\"components\":["

/-- Match of `"components":\[[^\]]*\]` at the head of `s`. -/
def matchR2At (s : List Char) : Option Nat :=
  if strStarts r2Head.data s then
    let rest := List.drop r2Head.data.length s
    let k := nonRBrackRun rest
    match rest.drop k with
    | ']' :: _ => some (r2Head.data.length + k + 1)
    | _ => none
  else none

/-- Model of `re.sub` driver: replace every non-overlapping, left-to-right match of
`matchAt` (which always consumes at least one character) by `rep`.  Fuel is
the input length; each step consumes at least one character. -/
def subAux (matchAt : List Char → Option Nat) (rep : List Char) :
    Nat → List Char → List Char
  | 0, rest => rest
  | _ + 1, [] => []
  | n + 1, c :: cs =>
    match matchAt (c :: cs) with
    | some k => rep ++ subAux matchAt rep n (List.drop (k - 1) cs)
    | none => c :: subAux matchAt rep n cs

def subAll (matchAt : List Char → Option Nat) (rep : String) (s : String) : String :=
  ⟨subAux matchAt rep.data s.data.length s.data⟩

/-- Model of `re.sub(r'""(?!")', '"', line)`: collapse a doubled quote not followed by
a third quote; scanning resumes after each replacement. -/
def collapseQuotes : List Char → List Char
  | [] => []
  | [c] => [c]
  | [c1, c2] => if c1 == '"' && c2 == '"' then ['"'] else c1 :: collapseQuotes [c2]
  | c1 :: c2 :: c3 :: rest =>
    if c1 == '"' && c2 == '"' then
      if c3 == '"' then c1 :: collapseQuotes (c2 :: c3 :: rest)
      else '"' :: collapseQuotes (c3 :: rest)
    else c1 :: collapseQuotes (c2 :: c3 :: rest)

/-- First repair pass (the targeted version-string/array fixes applied to
every line before the first decode attempt). -/
def repairPass1 (line : String) : String :=
  let line := replaceAll line "OWASP_CRS/4.17.1\\\"\"" "OWASP_CRS/4.17.1\""
  let line := replaceAll line "OWASP_CRS/4.17.1\"\"" "OWASP_CRS/4.17.1\""
  subAll matchR1At componentsCanon line

/-- Second, aggressive repair pass (canonical `components` array, doubled
quote collapse), applied to the pass-1 output when decoding failed. -/
def repairPass2 (line : String) : String :=
  let line := subAll matchR2At componentsCanon line
  String.mk (collapseQuotes line.data)

/-- Decode one raw line: first pass, `json.loads` (the abstract `jsonDecode`
parameter stands for Python's JSON decoder), on failure the second pass and
one retry; `none` means both attempts failed and the line is dropped. -/
def decodeLine (jsonDecode : String → Option Transaction) (line : String) :
    Option Transaction :=
  let l1 := repairPass1 line
  match jsonDecode l1 with
  | some tx => some tx
  | none => jsonDecode (repairPass2 l1)

/-! ### Ingestion loop (`process_new_logs`) -/

/-- Python `line.strip()` falsiness: all-whitespace line, skipped early. -/
def isBlank (l : String) : Bool := l.data.all Char.isWhitespace

/-- Bytes one stored line occupies: its characters plus the terminating
newline (the audit log is ASCII, so characters = bytes). -/
def lineLen (l : String) : Nat := l.length + 1

/-- Model of `f.tell()` after reading all lines equals the start offset plus this. -/
def totalLen (lines : List String) : Nat := (lines.map lineLen).sum

/-- The reading loop of `process_new_logs`: skip blank lines, repair/decode
(drop the line when both passes fail), parse and collect.  `uuid k` is the
fresh event id handed to the `k`-th successful `parse_log_entry` call;
returns the built records and the next uuid index. -/
def readPhase (jsonDecode : String → Option Transaction)
    (enum : List String → List String) (uuid : Nat → String) :
    Nat → List String → List BuiltRecords × Nat
  | k, [] => ([], k)
  | k, l :: ls =>
    if isBlank l then readPhase jsonDecode enum uuid k ls
    else match decodeLine jsonDecode l with
      | none => readPhase jsonDecode enum uuid k ls
      | some tx =>
        match parseLogEntry enum (uuid k) tx with
        | none => readPhase jsonDecode enum uuid k ls
        | some r =>
          let (rs, k2) := readPhase jsonDecode enum uuid (k + 1) ls
          (r :: rs, k2)

/-- The durable destination store: committed rows of the two tables. -/
structure Store where
  wafRows : List WafLogR
  eventRows : List SecurityEventR
  deriving DecidableEq

/-- Unique-key conflict on `waf_logs.log_unique_id` at flush time, against
committed rows and rows already flushed in the open session. -/
def wafConflict (st : Store) (pend : List WafLogR) (w : WafLogR) : Bool :=
  (st.wafRows ++ pend).any (fun r => r.log_unique_id == w.log_unique_id)

/-- Unique-key conflict on `security_events.event_id` at flush time. -/
def evConflict (st : Store) (pend : List SecurityEventR) (e : SecurityEventR) : Bool :=
  (st.eventRows ++ pend).any (fun r => r.event_id == e.event_id)

/-- The per-result loop of the batch phase: flush the legacy row, on
`IntegrityError` roll back the session (discarding every pending row,
including earlier non-duplicate results) and skip to the next result; then
flush the event row likewise.  The notification list is a plain Python list
and is NOT rolled back. -/
def batchLoop (st : Store) :
    List BuiltRecords → List WafLogR → List SecurityEventR → List SecurityEventR →
    List WafLogR × List SecurityEventR × List SecurityEventR
  | [], pw, pe, ne => (pw, pe, ne)
  | r :: rs, pw, pe, ne =>
    if wafConflict st pw r.wafLog then batchLoop st rs [] [] ne
    else
      let pw2 := pw ++ [r.wafLog]
      if evConflict st pe r.securityEvent then batchLoop st rs [] [] ne
      else batchLoop st rs pw2 (pe ++ [r.securityEvent]) (ne ++ [r.securityEvent])

/-- The batch phase: run the loop, then one commit.  On success the current
session's pending rows become durable and the collected notifications are
sent; on failure (`commitOk = false`) the code rolls back and sends nothing —
but the caller still saves the advanced offset. -/
def persistBatch (st : Store) (results : List BuiltRecords) (commitOk : Bool) :
    Store × List SecurityEventR :=
  if results.isEmpty then (st, [])
  else
    let (pw, pe, ne) := batchLoop st results [] [] []
    if commitOk then
      ({ wafRows := st.wafRows ++ pw, eventRows := st.eventRows ++ pe }, ne)
    else (st, [])

/-- One poll cycle's outcome. -/
structure CycleOut where
  store : Store
  newPosition : Nat
  notified : List SecurityEventR
  deriving DecidableEq

/-- Model of `process_new_logs`: read and build, persist the batch, save the offset.
The offset write is unconditional in the source — it runs after a failed
commit as well, which is what the checkpoint claims are about. -/
def processNewLogs (jsonDecode : String → Option Transaction)
    (enum : List String → List String) (uuid : Nat → String) (k : Nat)
    (commitOk : Bool) (st : Store) (lastPosition : Nat) (lines : List String) :
    CycleOut :=
  let (results, _) := readPhase jsonDecode enum uuid k lines
  let (st2, ne) := persistBatch st results commitOk
  { store := st2, newPosition := lastPosition + totalLen lines, notified := ne }

/-! ### Derived per-message views of the indicator loop -/

/-- The attack type one message contributes (the `if rule_file:` block). -/
def msgType (m : Msg) : Option String :=
  if (m.details.file).getD "" ≠ "" then
    classifyAttackType (String.mk (lastSeg ((m.details.file).getD "").data))
  else none

/-- A non-evaluation violation as the indicator loop actually defines it:
a truthy `ruleId` outside `EVALUATION_RULES` AND a truthy rule file whose
upper-cased text contains ATTACK, SCANNER or PROTOCOL. -/
def nonEvalViol (m : Msg) : Bool :=
  match m.details.ruleId with
  | some rid =>
    rid ≠ "" && (!(EVALUATION_RULES.contains rid) &&
      ((m.details.file).getD "" ≠ "" && fileMarkers ((m.details.file).getD "")))
  | none => false

/-- The rule ids one message appends. -/
def msgRuleIds (m : Msg) : List String :=
  match m.details.ruleId with
  | some rid => if rid ≠ "" then [rid] else []
  | none => []

/-- The rule files one message appends. -/
def msgRuleFiles (m : Msg) : List String :=
  if (m.details.file).getD "" ≠ "" then [(m.details.file).getD ""] else []

/-- A severity field the severity block can process without raising:
missing, or a string. -/
def SevOk (m : Msg) : Bool :=
  match m.details.severity with
  | none => true
  | some (.str _) => true
  | some _ => false

/-- The insertion-order enumeration: one possible Python set order. -/
def dedupEnum : List String → List String := fun l => l.dedup

/-- The reversed enumeration: another possible Python set order (a different
hash seed). -/
def revEnum : List String → List String := fun l => l.dedup.reverse

theorem enumOk_dedup : EnumOk dedupEnum := fun _ => List.Perm.refl _

theorem enumOk_rev : EnumOk revEnum := fun _ => List.reverse_perm _

theorem enumOk_nil {e : List String → List String} (h : EnumOk e) : e [] = [] :=
  List.Perm.eq_nil (by simpa using h [])

/-- Closed form of one indicator-loop iteration. -/
theorem coreStep_eq (acc : CoreAcc) (m : Msg) :
    coreStep acc m = (sevVal m.details.severity).map (fun v =>
      { attackTypes :=
          match msgType m with
          | some ty => setAdd acc.attackTypes ty
          | none => acc.attackTypes,
        ruleIds := acc.ruleIds ++ msgRuleIds m,
        ruleFiles := acc.ruleFiles ++ msgRuleFiles m,
        totalSeverity := acc.totalSeverity + v,
        anomaly :=
          match msgScoreInd m with
          | some v2 => max acc.anomaly v2
          | none => acc.anomaly,
        hasViol := acc.hasViol || nonEvalViol m }) := by
  unfold coreStep msgType nonEvalViol msgRuleIds msgRuleFiles
  cases hsev : sevVal m.details.severity <;>
    cases hrid : m.details.ruleId <;>
      simp [Except.map, bind, Except.bind, hsev] <;>
        (repeat' split) <;> simp_all [pure, Except.pure]

/-- The running anomaly value of the indicator loop is the left fold of
`max` over the extracted per-message scores. -/
theorem analyzeCoreAux_anomaly (msgs : List Msg) : ∀ (acc acc' : CoreAcc),
    analyzeCoreAux acc msgs = .ok acc' →
    acc'.anomaly = (msgs.filterMap msgScoreInd).foldl max acc.anomaly := by
  induction msgs with
  | nil =>
    intro acc acc' h
    simp only [analyzeCoreAux] at h
    cases h
    simp
  | cons m ms ih =>
    intro acc acc' h
    rw [analyzeCoreAux, coreStep_eq] at h
    cases hsev : sevVal m.details.severity with
    | error e => rw [hsev] at h; simp [Except.map] at h
    | ok v =>
      rw [hsev] at h
      simp only [Except.map] at h
      have hrec := ih _ _ h
      cases hms : msgScoreInd m <;>
        simp_all [List.filterMap_cons, hms]

/-- The running violation flag of the indicator loop is the disjunction of
the per-message violation predicate. -/
theorem analyzeCoreAux_hasViol (msgs : List Msg) : ∀ (acc acc' : CoreAcc),
    analyzeCoreAux acc msgs = .ok acc' →
    acc'.hasViol = (acc.hasViol || msgs.any nonEvalViol) := by
  induction msgs with
  | nil =>
    intro acc acc' h
    simp only [analyzeCoreAux] at h
    cases h
    simp
  | cons m ms ih =>
    intro acc acc' h
    rw [analyzeCoreAux, coreStep_eq] at h
    cases hsev : sevVal m.details.severity with
    | error e => rw [hsev] at h; simp [Except.map] at h
    | ok v =>
      rw [hsev] at h
      simp only [Except.map] at h
      have hrec := ih _ _ h
      simp_all [Bool.or_assoc]

/-- A well-typed severity field cannot raise. -/
theorem sevVal_isOk {m : Msg} (h : SevOk m = true) :
    ∃ v, sevVal m.details.severity = .ok v := by
  unfold SevOk at h
  unfold sevVal
  cases hs : m.details.severity with
  | none => exact ⟨_, rfl⟩
  | some jv => cases jv <;> simp_all

/-- The indicator loop succeeds whenever every severity field is well typed
(missing or a string). -/
theorem analyzeCoreAux_isOk (msgs : List Msg) : ∀ acc : CoreAcc,
    (∀ m ∈ msgs, SevOk m = true) →
    ∃ acc', analyzeCoreAux acc msgs = .ok acc' := by
  induction msgs with
  | nil => intro acc _; exact ⟨acc, rfl⟩
  | cons m ms ih =>
    intro acc hall
    obtain ⟨v, hv⟩ := sevVal_isOk (hall m (by simp))
    rw [analyzeCoreAux, coreStep_eq, hv]
    simp only [Except.map]
    exact ih _ (fun m' hm' => hall m' (by simp [hm']))

/-! ### Lemmas about the batch phase -/

/-- Committed natural keys of the legacy table. -/
def wafKeys (st : Store) : List (Option String) :=
  st.wafRows.map (fun r => r.log_unique_id)

/-- Number of committed legacy rows carrying one natural key. -/
def wafKeyCount (rows : List WafLogR) (uid : Option String) : Nat :=
  (rows.filter (fun r => r.log_unique_id == uid)).length

theorem wafConflict_false {st : Store} {pend : List WafLogR} {w : WafLogR}
    (h : wafConflict st pend w = false) : w.log_unique_id ∉ wafKeys st := by
  intro hmem
  unfold wafConflict at h
  simp only [List.any_append, Bool.or_eq_false_iff, List.any_eq_false] at h
  obtain ⟨r, hr, hkey⟩ := List.mem_map.mp hmem
  exact absurd (by simp [hkey]) (h.1 r hr)

/-- Invariants of the per-result loop, for any property `Good` that the
event row of every non-duplicate result has: every pending legacy row's key
is absent from the committed table, and every pending event row is `Good`. -/
theorem batchLoop_spec (st : Store) (Good : SecurityEventR → Prop) :
    ∀ (results : List BuiltRecords) (pw : List WafLogR) (pe ne : List SecurityEventR),
    (∀ w ∈ pw, w.log_unique_id ∉ wafKeys st) →
    (∀ e ∈ pe, Good e) →
    (∀ r ∈ results, r.wafLog.log_unique_id ∉ wafKeys st → Good r.securityEvent) →
    (∀ w ∈ (batchLoop st results pw pe ne).1, w.log_unique_id ∉ wafKeys st) ∧
    (∀ e ∈ (batchLoop st results pw pe ne).2.1, Good e) := by
  intro results
  induction results with
  | nil =>
    intro pw pe ne hpw hpe _
    exact ⟨by simpa [batchLoop] using hpw, by simpa [batchLoop] using hpe⟩
  | cons r rs ih =>
    intro pw pe ne hpw hpe hres
    have hres' : ∀ r' ∈ rs, r'.wafLog.log_unique_id ∉ wafKeys st → Good r'.securityEvent :=
      fun r' h => hres r' (List.mem_cons_of_mem _ h)
    rw [batchLoop]
    by_cases h1 : wafConflict st pw r.wafLog = true
    · simpa only [h1, if_true] using ih [] [] ne (by simp) (by simp) hres'
    · have h1f : wafConflict st pw r.wafLog = false := by simpa using h1
      have hnew : r.wafLog.log_unique_id ∉ wafKeys st := wafConflict_false h1f
      simp only [h1f, Bool.false_eq_true, if_false]
      by_cases h2 : evConflict st pe r.securityEvent = true
      · simpa only [h2, if_true] using ih [] [] ne (by simp) (by simp) hres'
      · have h2f : evConflict st pe r.securityEvent = false := by simpa using h2
        simp only [h2f, Bool.false_eq_true, if_false]
        exact ih (pw ++ [r.wafLog]) (pe ++ [r.securityEvent]) (ne ++ [r.securityEvent])
          (by
            intro w hw
            rcases List.mem_append.mp hw with h | h
            · exact hpw w h
            · exact (List.mem_singleton.mp h) ▸ hnew)
          (by
            intro e he
            rcases List.mem_append.mp he with h | h
            · exact hpe e h
            · exact (List.mem_singleton.mp h) ▸ hres r (List.mem_cons_self _ _) hnew)
          hres'

/-- Duplicate-safety of one batch: for a natural key already committed, the
batch adds no legacy row with that key, and every event row it adds comes
from a result whose transaction id was NOT already committed. -/
theorem persistBatch_spec (st : Store) (results : List BuiltRecords) (commitOk : Bool)
    (uid : Option String) (hdup : uid ∈ wafKeys st) :
    wafKeyCount (persistBatch st results commitOk).1.wafRows uid
      = wafKeyCount st.wafRows uid ∧
    ∀ e ∈ (persistBatch st results commitOk).1.eventRows,
      e ∈ st.eventRows ∨
        ∃ r ∈ results, r.wafLog.log_unique_id ∉ wafKeys st ∧ e = r.securityEvent := by
  obtain ⟨hw, he⟩ := batchLoop_spec st
    (fun e => ∃ r ∈ results, r.wafLog.log_unique_id ∉ wafKeys st ∧ e = r.securityEvent)
    results [] [] [] (by simp) (by simp) (fun r hr h => ⟨r, hr, h, rfl⟩)
  unfold persistBatch
  by_cases hres : results.isEmpty
  · simp only [hres, if_true]
    exact ⟨by trivial, fun e hmem => Or.inl hmem⟩
  · simp only [hres, Bool.false_eq_true, if_false]
    rcases hsplit : batchLoop st results [] [] [] with ⟨pw, pe, ne⟩
    rw [hsplit] at hw he
    by_cases hc : commitOk = true
    · simp only [hc, if_true]
      constructor
      · have hpw0 : pw.filter (fun r => r.log_unique_id == uid) = [] := by
          rw [List.filter_eq_nil_iff]
          intro w hwmem
          have hne : w.log_unique_id ≠ uid := fun hEq => (hw w hwmem) (hEq ▸ hdup)
          simpa using hne
        simp [wafKeyCount, List.filter_append, hpw0]
      · intro e hmem
        rcases List.mem_append.mp hmem with h | h
        · exact Or.inl h
        · exact Or.inr (he e h)
    · simp only [hc, Bool.false_eq_true, if_false]
      exact ⟨by trivial, fun e hmem => Or.inl hmem⟩

/-! ### Lemmas about the reading loop -/

/-- A line that still fails to decode after both repair passes contributes
nothing: the loop skips it and continues. -/
theorem readPhase_skip (jsonDecode : String → Option Transaction)
    (enum : List String → List String) (uuid : Nat → String) (l : String)
    (hl : decodeLine jsonDecode l = none) (k : Nat) (ls : List String) :
    readPhase jsonDecode enum uuid k (l :: ls) = readPhase jsonDecode enum uuid k ls := by
  rw [readPhase]
  by_cases hb : isBlank l = true
  · simp [hb]
  · simp [hb, hl]

/-- Dropping an undecodable line anywhere in the batch leaves the rest of the
reading loop's output unchanged. -/
theorem readPhase_drop (jsonDecode : String → Option Transaction)
    (enum : List String → List String) (uuid : Nat → String) (l : String)
    (hl : decodeLine jsonDecode l = none) (pre post : List String) : ∀ k : Nat,
    readPhase jsonDecode enum uuid k (pre ++ l :: post)
      = readPhase jsonDecode enum uuid k (pre ++ post) := by
  induction pre with
  | nil => intro k; simpa using readPhase_skip jsonDecode enum uuid l hl k post
  | cons c cs ih =>
    intro k
    rw [List.cons_append, List.cons_append, readPhase, readPhase]
    by_cases hb : isBlank c = true
    · simp [hb, ih]
    · cases hd : decodeLine jsonDecode c with
      | none => simp [hb, hd, ih]
      | some tx =>
        cases hp : parseLogEntry enum (uuid k) tx with
        | none => simp [hb, hd, hp, ih]
        | some r => simp [hb, hd, hp, ih]

theorem totalLen_append (a b : List String) :
    totalLen (a ++ b) = totalLen a + totalLen b := by
  simp [totalLen]

theorem totalLen_cons (l : String) (ls : List String) :
    totalLen (l :: ls) = lineLen l + totalLen ls := by
  simp [totalLen]

/-! ### Concrete inputs used by witnesses, counterexamples and evaluations -/

/-- A benign transaction: no rule matches, method and uri present. -/
def txPlain : Transaction := {
  unique_id := some "tx-plain",
  time_stamp := some "Mon Aug 11 09:19:10 2025",
  client_ip := some "1.2.3.4",
  client_port := some 1234,
  host_ip := some "5.6.7.8",
  host_port := some 80,
  request := { method := some "GET", uri := some "/", headers := [("Host", "example.com")] },
  response := { http_code := some 200 },
  messages := [] }

/-- Two attack-signature matches (XSS then SQLI), used for the set-order
counterexample. -/
def msgXss : Msg := {
  message := some "XSS Attack Detected",
  details := { ruleId := some "941100",
               file := some "REQUEST-941-APPLICATION-ATTACK-XSS.conf",
               severity := some (.str "2") } }

def msgSqli : Msg := {
  message := some "SQL Injection Attack",
  details := { ruleId := some "942100",
               file := some "REQUEST-942-APPLICATION-ATTACK-SQLI.conf",
               severity := some (.str "2") } }

def txTwoTypes : Transaction := { txPlain with unique_id := some "tx-two", messages := [msgXss, msgSqli] }

/-- Three one-line transactions for the ingestion-cycle evaluations. -/
def txA : Transaction := { txPlain with unique_id := some "idA" }
def txB : Transaction := { txPlain with unique_id := some "idB" }
def txC : Transaction := { txPlain with unique_id := some "idC" }

/-- A concrete decoder standing for `json.loads` on three known line texts. -/
def demoDecode : String → Option Transaction := fun s =>
  if s = "LA" then some txA
  else if s = "LB" then some txB
  else if s = "LC" then some txC
  else none

/-- A concrete uuid stream (all values distinct). -/
def demoUuid : Nat → String := fun n => "uuid-" ++ toString n

/-- A committed legacy row for transaction id "idB" (as left by an earlier
successful cycle). -/
def wafRowB : WafLogR := {
  log_unique_id := some "idB", timestamp := none, source_ip := "1.2.3.4",
  source_port := none, dest_ip := none, dest_port := none,
  target_website := "example.com", method := some "GET", uri := some "/",
  status_code := 200, is_blocked := false, is_attack := false,
  attack_types := [], rule_ids := [], rule_files := [],
  severity_score := 0, anomaly_score := 0, raw_log := txB }

/-- The committed event row of that earlier cycle. -/
def evRowB : SecurityEventR := {
  event_id := "u-old", timestamp := none, source_ip := "1.2.3.4",
  source_port := none, destination_ip := none, destination_port := none,
  target_website := "example.com", uri := some "/", method := some "GET",
  status_code := 200, user_agent := "", attack_type := none, severity := "low",
  is_attack := false, is_blocked := false, risk_score := 0, anomaly_score := 0,
  rules_matched := [], rule_files := [], request_headers := [],
  request_body := "", response_headers := [], response_body := "",
  geo_location := none }

/-- A store that already holds transaction "idB". -/
def storeB : Store := { wafRows := [wafRowB], eventRows := [evRowB] }

/-! ### The claims -/

/-- The cycle of the C1 evaluation: three lines A, B, C where B's transaction
id is already committed and A, C are new; the final commit succeeds. -/
def c1CycleDup : CycleOut :=
  processNewLogs demoDecode dedupEnum demoUuid 0 true storeB 0 ["LA", "LB", "LC"]

/-- The cycle of the C1 evaluation whose final commit fails. -/
def c1CycleFail : CycleOut :=
  processNewLogs demoDecode dedupEnum demoUuid 0 false storeB 0 ["LA"]

/-- Claim C1. — The claim says the checkpoint is updated only after the batch has
been durably committed, so that no transaction is permanently lost.  The code
violates this: (a) in a batch `[A, B, C]` where `B` is a duplicate, `A` is
read and built (first conjunct) but the duplicate-triggered session rollback
discards `A`'s flushed rows and only `C` is committed — yet the checkpoint
advances past all three lines, and `A`'s event is even "notified" though
never stored; (b) when the final commit fails, nothing is committed but the
checkpoint still advances.  In both cases a transaction is permanently lost
while the checkpoint moves past its line. -/
theorem c1_checkpoint_advances_past_lost_transactions :
    ((readPhase demoDecode dedupEnum demoUuid 0 ["LA", "LB", "LC"]).1.map
        (fun r => r.wafLog.log_unique_id) = [some "idA", some "idB", some "idC"]) ∧
    c1CycleDup.store.wafRows.map (fun w => w.log_unique_id) = [some "idB", some "idC"] ∧
    c1CycleDup.store.eventRows.map (fun e => e.event_id) = ["u-old", "uuid-2"] ∧
    c1CycleDup.newPosition = totalLen ["LA", "LB", "LC"] ∧
    c1CycleDup.notified.map (fun e => e.event_id) = ["uuid-0", "uuid-2"] ∧
    c1CycleFail.store = storeB ∧
    c1CycleFail.newPosition = totalLen ["LA"] ∧
    c1CycleFail.notified = [] :=
  ⟨by decide, by decide, by decide, by decide, by decide, by decide, by decide, by decide⟩

/-- Claim C2. — Re-ingesting lines whose transaction unique ids are already
committed inserts zero additional legacy rows for those ids, and every
security-event row the cycle adds comes from a transaction whose id was NOT
already committed — for an arbitrary fresh-uuid stream, i.e. independently of
the per-run event ids. -/
theorem c2_reingest_is_idempotent (jsonDecode : String → Option Transaction)
    (enum : List String → List String) (uuid : Nat → String) (k : Nat)
    (commitOk : Bool) (st : Store) (lastPos : Nat) (lines : List String)
    (uid : Option String) (hdup : uid ∈ wafKeys st) :
    wafKeyCount
        (processNewLogs jsonDecode enum uuid k commitOk st lastPos lines).store.wafRows uid
      = wafKeyCount st.wafRows uid ∧
    ∀ e ∈ (processNewLogs jsonDecode enum uuid k commitOk st lastPos lines).store.eventRows,
      e ∈ st.eventRows ∨
        ∃ r ∈ (readPhase jsonDecode enum uuid k lines).1,
          r.wafLog.log_unique_id ∉ wafKeys st ∧ e = r.securityEvent := by
  have h := persistBatch_spec st (readPhase jsonDecode enum uuid k lines).1 commitOk uid hdup
  simpa [processNewLogs] using h

/-- Witness for C2: re-reading B's line against a store already holding
"idB" leaves the legacy row count for "idB" unchanged. -/
theorem c2_reingest_is_idempotent_witness :
    wafKeyCount
        (processNewLogs demoDecode dedupEnum demoUuid 0 true storeB 0 ["LB"]).store.wafRows
        (some "idB")
      = wafKeyCount storeB.wafRows (some "idB") :=
  (c2_reingest_is_idempotent demoDecode dedupEnum demoUuid 0 true storeB 0 ["LB"]
    (some "idB") (by decide)).1

/-- The C3 counterexample message: rule id outside the evaluation set, rule
file without an ATTACK/SCANNER/PROTOCOL marker. -/
def c3Msg : Msg := {
  message := some "some rule message",
  details := { ruleId := some "12345", file := some "crs-setup.conf",
               severity := some (.str "2") } }

/-- The loop state the C3 counterexample produces. -/
def c3Acc : CoreAcc := {
  attackTypes := [], ruleIds := ["12345"], ruleFiles := ["crs-setup.conf"],
  totalSeverity := 2, anomaly := 0, hasViol := false }

/-- Claim C3 (counterexample). — The claim's "in particular" instance is false on
the code: a transaction with one message whose ruleId is outside the
evaluation-rule set, anomaly score 0 and no classified attack type gets
`is_attack = false` when its rule file carries none of the
ATTACK/SCANNER/PROTOCOL markers — the code's violation flag requires a
marker in the rule file, not merely a non-evaluation ruleId. -/
theorem c3_counterexample :
    c3Msg.details.ruleId = some "12345" ∧
    EVALUATION_RULES.contains "12345" = false ∧
    analyzeCore [c3Msg] = .ok c3Acc ∧
    c3Acc.attackTypes = [] ∧
    c3Acc.anomaly = 0 ∧
    isAttackOf c3Acc = false ∧
    analyzeAttackIndicators dedupEnum [c3Msg]
      = .ok { attack_types := [], rule_ids := ["12345"], rule_files := ["crs-setup.conf"],
              severity_score := 2, anomaly_score := 0, is_attack := false } :=
  ⟨rfl, by decide, by decide, rfl, rfl, by decide, by decide⟩

/-- Claim C3 (amended). — `is_attack` is true iff at least one attack type was
classified, or a non-evaluation *violation* occurred and anomaly ≥ 5, or any
non-evaluation violation occurred at all — where a violation additionally
requires the rule file to contain an ATTACK/SCANNER/PROTOCOL marker
(`nonEvalViol`). -/
theorem c3_is_attack_characterization (msgs : List Msg) (acc : CoreAcc)
    (h : analyzeCore msgs = .ok acc) :
    isAttackOf acc
      = (!acc.attackTypes.isEmpty
          || (msgs.any nonEvalViol && decide (5 ≤ acc.anomaly))
          || msgs.any nonEvalViol) := by
  have hv := analyzeCoreAux_hasViol msgs {} acc h
  simp only [isAttackOf, hv]
  simp

/-- Witness message for the amended C3: non-evaluation ruleId whose file
carries a SCANNER marker but classifies to no type; anomaly 0. -/
def c3WMsg : Msg := {
  message := some "scanner rule hit",
  details := { ruleId := some "913999", file := some "MY-SCANNER-RULES.conf",
               severity := some (.str "0") } }

/-- Loop state of the amended-C3 witness. -/
def c3WAcc : CoreAcc := {
  attackTypes := [], ruleIds := ["913999"], ruleFiles := ["MY-SCANNER-RULES.conf"],
  totalSeverity := 0, anomaly := 0, hasViol := true }

/-- Witness for the amended C3, also exhibiting the corrected "in particular"
case: with a marker-bearing file, no classified type and anomaly 0, the
transaction is still flagged as an attack. -/
theorem c3_is_attack_characterization_witness :
    analyzeCore [c3WMsg] = .ok c3WAcc ∧
    isAttackOf c3WAcc
      = (!c3WAcc.attackTypes.isEmpty
          || ([c3WMsg].any nonEvalViol && decide (5 ≤ c3WAcc.anomaly))
          || [c3WMsg].any nonEvalViol) ∧
    c3WAcc.attackTypes = [] ∧ c3WAcc.anomaly = 0 ∧ isAttackOf c3WAcc = true :=
  ⟨by decide, c3_is_attack_characterization [c3WMsg] c3WAcc (by decide),
   rfl, rfl, by decide⟩

/-- Claim C5. — The classification's anomaly score is the left fold of `max`
(from 0) over the per-message extracted scores — the maximum, not the sum;
messages with no extractable score leave the value unchanged, and with no
extractable score at all the result is 0. -/
theorem c5_anomaly_is_max_not_sum (msgs : List Msg) (acc : CoreAcc)
    (h : analyzeCore msgs = .ok acc) :
    acc.anomaly = (msgs.filterMap msgScoreInd).foldl max 0 ∧
    (msgs.filterMap msgScoreInd = [] → acc.anomaly = 0) := by
  have ha := analyzeCoreAux_anomaly msgs {} acc h
  constructor
  · simpa using ha
  · intro hnil
    rw [hnil] at ha
    simpa using ha

/-- Witness messages for C5: extracted scores 7 then 3. -/
def c5MsgA : Msg := {
  message := some "Inbound Anomaly Score Exceeded",
  details := { ruleId := some "949110", severity := some (.str "0"),
               mtch := some ("Matched. Value: `7" ++ squote.toString) } }

def c5MsgB : Msg := {
  message := some "Inbound Anomaly Score (partial)",
  details := { ruleId := some "980130", severity := some (.str "0"),
               mtch := some ("Matched. Value: `3" ++ squote.toString) } }

/-- Loop state of the C5 witness. -/
def c5Acc : CoreAcc := {
  attackTypes := [], ruleIds := ["949110", "980130"], ruleFiles := [],
  totalSeverity := 0, anomaly := 7, hasViol := false }

/-- Witness for C5: scores 7 and 3 give anomaly 7 (max), not 10 (sum). -/
theorem c5_anomaly_is_max_not_sum_witness :
    analyzeCore [c5MsgA, c5MsgB] = .ok c5Acc ∧
    c5Acc.anomaly = ([c5MsgA, c5MsgB].filterMap msgScoreInd).foldl max 0 ∧
    c5Acc.anomaly = 7 :=
  ⟨by decide, (c5_anomaly_is_max_not_sum [c5MsgA, c5MsgB] c5Acc (by decide)).1, rfl⟩

/-- Claim C6 (counterexample). — Two valid Python set-enumeration orders (two
hash seeds, i.e. two runs) of the same classified set produce different
classification outputs on the same transaction: the attack-type list order
differs and so does the derived primary attack type. -/
theorem c6_counterexample :
    (revEnum ["XSS", "SQLI"]).Perm (dedupEnum ["XSS", "SQLI"]) ∧
    (analyzeLogEntry dedupEnum txTwoTypes).map (fun pd => pd.attack.attack_types)
      = some ["XSS", "SQLI"] ∧
    (analyzeLogEntry revEnum txTwoTypes).map (fun pd => pd.attack.attack_types)
      = some ["SQLI", "XSS"] ∧
    analyzeLogEntry dedupEnum txTwoTypes ≠ analyzeLogEntry revEnum txTwoTypes ∧
    (parseLogEntry dedupEnum "u" txTwoTypes).map (fun r => r.securityEvent.attack_type)
      = some (some "XSS") ∧
    (parseLogEntry revEnum "u" txTwoTypes).map (fun r => r.securityEvent.attack_type)
      = some (some "SQLI") :=
  ⟨by decide, by decide, by decide, by decide, by decide, by decide⟩

/-- The C9 message: declared severity is the JSON *number* 3. -/
def c9Msg : Msg := {
  message := some "protocol rule",
  details := { ruleId := some "920350", file := some "REQUEST-920-PROTOCOL-ENFORCEMENT.conf",
               severity := some (.num 3) } }

/-- The C9 transaction. -/
def c9Tx : Transaction := { txPlain with unique_id := some "tx-c9", messages := [c9Msg] }

/-- The same message with severity as the string "3". -/
def c9MsgStr : Msg := {
  message := some "protocol rule",
  details := { ruleId := some "920350", file := some "REQUEST-920-PROTOCOL-ENFORCEMENT.conf",
               severity := some (.str "3") } }

/-- The same transaction with the string severity. -/
def c9TxStr : Transaction := { txPlain with unique_id := some "tx-c9", messages := [c9MsgStr] }

/-- Claim C9. — The claim says a severity of any JSON type contributes its
numeric value or 0 and never causes the entry to be rejected.  The code's
severity block calls `.isdigit()` on the raw value inside
`except (ValueError, TypeError)`; on any non-string value this raises
`AttributeError`, which escapes to `analyze_log_entry`'s catch-all, so the
WHOLE entry is dropped.  With severity as the JSON number 3 the entry is
rejected; the identical message with severity "3" is accepted and
contributes 3. -/
theorem c9_nonstring_severity_rejects_entry :
    c9Msg.details.severity = some (.num 3) ∧
    sevVal c9Msg.details.severity = .error () ∧
    analyzeLogEntry dedupEnum c9Tx = none ∧
    parseLogEntry dedupEnum "u" c9Tx = none ∧
    (analyzeLogEntry dedupEnum c9TxStr).map (fun pd => pd.attack.severity_score) = some 3 ∧
    (parseLogEntry dedupEnum "u" c9TxStr).isSome = true :=
  ⟨rfl, rfl, by decide, by decide, by decide, by decide⟩

/-- Claim C4. — A transaction whose only match is the blocking/threshold rule
949110 with an "Inbound Anomaly Score" message and an embedded score of 10
classifies as blocked with anomaly score 10 (for any response status). -/
theorem c4_blocking_rule_with_score10 (tx : Transaction) (m : Msg)
    (enum : List String → List String)
    (hmsgs : tx.messages = [m])
    (hid : m.details.ruleId = some "949110")
    (hmsg : strHas (m.message.getD "") inboundPat = true)
    (hval : extractMatchVal ((m.details.mtch).getD "") = some 10)
    (hsev : SevOk m = true) :
    (analyzeLogEntry enum tx).map (fun pd => (pd.is_blocked, pd.attack.anomaly_score))
      = some (true, 10) := by
  have hsc : msgScoreInd m = some 10 := by
    simp [msgScoreInd, hmsg, hval]
  obtain ⟨acc, hacc⟩ := analyzeCoreAux_isOk [m] {} (by simpa using hsev)
  have hanom : acc.anomaly = 10 := by
    have := analyzeCoreAux_anomaly [m] {} acc hacc
    simpa [List.filterMap_cons, hsc] using this
  have hmax : max (0 : Int) 10 = 10 := by norm_num
  have h10 : (10 : Int) ≤ blkAnomaly [m] := by
    unfold blkAnomaly
    simp only [List.foldl_cons, List.foldl_nil, hmsg, hval, if_true]
    cases hdg : strHas (m.details.data.getD "") inboundPat with
    | false => simp [hdg, hmax]
    | true =>
      simp only [hdg, if_true]
      cases hde : extractDataVal (m.details.data.getD "") with
      | none => simp [hmax]
      | some v2 => simp [hmax, le_max_left]
  have hblocked : ∀ status : Int, analyzeBlockingStatus [m] status = true := by
    intro status
    unfold analyzeBlockingStatus
    have hbr : [m].any (fun mm => mm.details.ruleId == some BLOCKING_RULE_ID) = true := by
      simp [hid, BLOCKING_RULE_ID]
    have hdec : decide ((5 : Int) ≤ blkAnomaly [m]) = true :=
      decide_eq_true (by omega)
    simp [hbr, hdec]
  unfold analyzeLogEntry analyzeAttackIndicators analyzeCore
  rw [hmsgs, hacc]
  simp [bind, Except.bind, pure, Except.pure, hblocked, hanom]

/-- Concrete C4 message: rule 949110 with `Value: \x6010'` in the match
field. -/
def c4Msg : Msg := {
  message := some "Inbound Anomaly Score Exceeded (Total Score 10)",
  details := { ruleId := some "949110",
               file := some "REQUEST-949-BLOCKING-EVALUATION.conf",
               severity := some (.str "0"),
               mtch := some ("Matched. Value: `10" ++ squote.toString) } }

/-- Concrete C4 transaction. -/
def c4Tx : Transaction := { txPlain with unique_id := some "tx-c4", messages := [c4Msg] }

/-- Witness for C4. -/
theorem c4_blocking_rule_with_score10_witness :
    (analyzeLogEntry dedupEnum c4Tx).map (fun pd => (pd.is_blocked, pd.attack.anomaly_score))
      = some (true, 10) :=
  c4_blocking_rule_with_score10 c4Tx c4Msg dedupEnum rfl rfl (by decide) (by decide) rfl

/-- Claim C6 (amended). — Classification is deterministic up to the enumeration
order of the two Python sets: for any two valid set orders (two runs), the
success of analysis and every scalar output agree, the rule-id list agrees,
and the attack-type and rule-file lists are permutations of each other.  The
order itself — and with it `attack_types[0]`, the derived primary attack
type — is not determined by the input (see the counterexample). -/
theorem c6_determinism_up_to_set_order (tx : Transaction)
    (e1 e2 : List String → List String) (h1 : EnumOk e1) (h2 : EnumOk e2) :
    (analyzeLogEntry e1 tx).isSome = (analyzeLogEntry e2 tx).isSome ∧
    (((analyzeLogEntry e1 tx).map (fun pd => pd.attack.attack_types)).getD []).Perm
      (((analyzeLogEntry e2 tx).map (fun pd => pd.attack.attack_types)).getD []) ∧
    (((analyzeLogEntry e1 tx).map (fun pd => pd.attack.rule_files)).getD []).Perm
      (((analyzeLogEntry e2 tx).map (fun pd => pd.attack.rule_files)).getD []) ∧
    (analyzeLogEntry e1 tx).map (fun pd => pd.attack.rule_ids)
      = (analyzeLogEntry e2 tx).map (fun pd => pd.attack.rule_ids) ∧
    (analyzeLogEntry e1 tx).map
        (fun pd => (pd.attack.severity_score, pd.attack.anomaly_score,
                    pd.attack.is_attack, pd.is_blocked, pd.timestamp, pd.log_unique_id))
      = (analyzeLogEntry e2 tx).map
        (fun pd => (pd.attack.severity_score, pd.attack.anomaly_score,
                    pd.attack.is_attack, pd.is_blocked, pd.timestamp, pd.log_unique_id)) := by
  unfold analyzeLogEntry analyzeAttackIndicators
  cases hc : analyzeCore tx.messages with
  | error e => simp [bind, Except.bind]
  | ok acc =>
    simp only [bind, Except.bind, pure, Except.pure, Option.map_some, Option.getD_some,
      Option.isSome_some]
    refine ⟨by trivial, ?_, ?_, by trivial, by trivial⟩
    · exact (h1 acc.attackTypes).trans (h2 acc.attackTypes).symm
    · exact (h1 acc.ruleFiles).trans (h2 acc.ruleFiles).symm

/-- Witness for the amended C6, at the two-type transaction and the two
concrete enumerations. -/
theorem c6_determinism_up_to_set_order_witness :
    (((analyzeLogEntry dedupEnum txTwoTypes).map (fun pd => pd.attack.attack_types)).getD
        []).Perm
      (((analyzeLogEntry revEnum txTwoTypes).map (fun pd => pd.attack.attack_types)).getD
        []) ∧
    (analyzeLogEntry dedupEnum txTwoTypes).map
        (fun pd => (pd.attack.severity_score, pd.attack.anomaly_score,
                    pd.attack.is_attack, pd.is_blocked, pd.timestamp, pd.log_unique_id))
      = (analyzeLogEntry revEnum txTwoTypes).map
        (fun pd => (pd.attack.severity_score, pd.attack.anomaly_score,
                    pd.attack.is_attack, pd.is_blocked, pd.timestamp, pd.log_unique_id)) :=
  ⟨(c6_determinism_up_to_set_order txTwoTypes dedupEnum revEnum enumOk_dedup enumOk_rev).2.1,
   (c6_determinism_up_to_set_order txTwoTypes dedupEnum revEnum enumOk_dedup enumOk_rev).2.2.2.2⟩

/-- Claim C7. — A line that still fails to decode after both repair passes is
dropped: the cycle's stored rows and notifications equal those of the same
batch without that line, while the checkpoint still advances past the dropped
line to the end of the read data. -/
theorem c7_undecodable_line_is_dropped (jsonDecode : String → Option Transaction)
    (enum : List String → List String) (uuid : Nat → String) (k : Nat)
    (commitOk : Bool) (st : Store) (lastPos : Nat) (pre post : List String)
    (l : String) (hl : decodeLine jsonDecode l = none) :
    readPhase jsonDecode enum uuid k (pre ++ l :: post)
      = readPhase jsonDecode enum uuid k (pre ++ post) ∧
    (processNewLogs jsonDecode enum uuid k commitOk st lastPos (pre ++ l :: post)).store
      = (processNewLogs jsonDecode enum uuid k commitOk st lastPos (pre ++ post)).store ∧
    (processNewLogs jsonDecode enum uuid k commitOk st lastPos (pre ++ l :: post)).notified
      = (processNewLogs jsonDecode enum uuid k commitOk st lastPos (pre ++ post)).notified ∧
    (processNewLogs jsonDecode enum uuid k commitOk st lastPos (pre ++ l :: post)).newPosition
      = lastPos + totalLen pre + lineLen l + totalLen post := by
  have hdrop := readPhase_drop jsonDecode enum uuid l hl pre post k
  refine ⟨hdrop, ?_, ?_, ?_⟩
  · simp [processNewLogs, hdrop]
  · simp [processNewLogs, hdrop]
  · simp only [processNewLogs, totalLen_append, totalLen_cons]
    omega

/-- Witness for C7: dropping the undecodable middle line leaves the other
two lines' results unchanged and the checkpoint covers all three lines. -/
theorem c7_undecodable_line_is_dropped_witness :
    readPhase demoDecode dedupEnum demoUuid 0 (["LA"] ++ "%%%" :: ["LC"])
      = readPhase demoDecode dedupEnum demoUuid 0 (["LA"] ++ ["LC"]) ∧
    (processNewLogs demoDecode dedupEnum demoUuid 0 true storeB 0
        (["LA"] ++ "%%%" :: ["LC"])).newPosition
      = 0 + totalLen ["LA"] + lineLen "%%%" + totalLen ["LC"] :=
  ⟨(c7_undecodable_line_is_dropped demoDecode dedupEnum demoUuid 0 true storeB 0
      ["LA"] ["LC"] "%%%" (by decide)).1,
   (c7_undecodable_line_is_dropped demoDecode dedupEnum demoUuid 0 true storeB 0
      ["LA"] ["LC"] "%%%" (by decide)).2.2.2⟩

/-- Claim C8. — A transaction with zero rule matches and method/uri present is
accepted and benign: not an attack, not blocked, no primary attack type, and
risk score 0. -/
theorem c8_zero_matches_is_benign (tx : Transaction) (enum : List String → List String)
    (eventId : String) (he : EnumOk enum)
    (hmsgs : tx.messages = [])
    (hm : pyTruthy tx.request.method = true)
    (hu : pyTruthy tx.request.uri = true) :
    (parseLogEntry enum eventId tx).map
        (fun r => (r.securityEvent.is_attack, r.securityEvent.is_blocked,
                   r.securityEvent.attack_type, r.wafLog.is_attack, r.wafLog.is_blocked))
      = some (false, false, none, false, false) ∧
    (parseLogEntry enum eventId tx).map (fun r => r.securityEvent.risk_score)
      = some 0 := by
  have hnil := enumOk_nil he
  unfold parseLogEntry analyzeLogEntry analyzeAttackIndicators analyzeCore
  rw [hmsgs]
  simp only [analyzeCoreAux, bind, Except.bind, pure, Except.pure]
  simp [hnil, hm, hu, isAttackOf, analyzeBlockingStatus, blkAnomaly, calculateRiskScore]

/-- Witness for C8, at the benign concrete transaction. -/
theorem c8_zero_matches_is_benign_witness :
    (parseLogEntry dedupEnum "u0" txPlain).map
        (fun r => (r.securityEvent.is_attack, r.securityEvent.is_blocked,
                   r.securityEvent.attack_type, r.wafLog.is_attack, r.wafLog.is_blocked))
      = some (false, false, none, false, false) ∧
    (parseLogEntry dedupEnum "u0" txPlain).map (fun r => r.securityEvent.risk_score)
      = some 0 :=
  c8_zero_matches_is_benign txPlain dedupEnum "u0" enumOk_dedup rfl rfl rfl

/-- Claim C10. — Timestamp parsing yields `None` for a missing `time_stamp` and
for any text not matching "%a %b %d %H:%M:%S %Y" (a matching example parses);
such a line still passes the ingestion-boundary validation (which rejects
only on missing method/uri), and both built records carry a null timestamp. -/
theorem c10_unparseable_timestamp_still_ingested :
    parseTimestampM none = none ∧
    parseTimestampM (some "2025-08-11 09:19:10") = none ∧
    parseTimestampM (some "Mon Aug 11 09:19:10 2025")
      = some { year := 2025, month := 8, day := 11, hour := 9, minute := 19, second := 10 } ∧
    ∀ (tx : Transaction) (enum : List String → List String) (eventId : String),
      (∀ m ∈ tx.messages, SevOk m = true) →
      pyTruthy tx.request.method = true →
      pyTruthy tx.request.uri = true →
      parseTimestampM tx.time_stamp = none →
      (parseLogEntry enum eventId tx).map
          (fun r => (r.wafLog.timestamp, r.securityEvent.timestamp))
        = some (none, none) := by
  refine ⟨rfl, by decide, by decide, ?_⟩
  intro tx enum eventId hsev hm hu hts
  obtain ⟨acc, hacc⟩ := analyzeCoreAux_isOk tx.messages {} hsev
  unfold parseLogEntry analyzeLogEntry analyzeAttackIndicators analyzeCore
  rw [hacc]
  simp [bind, Except.bind, pure, Except.pure, hm, hu, hts]

/-- The C10 concrete transaction: an ISO-style timestamp the parser cannot
read. -/
def c10Tx : Transaction := { txPlain with time_stamp := some "2025-08-11T09:19:10Z" }

/-- Witness for C10. -/
theorem c10_unparseable_timestamp_still_ingested_witness :
    (parseLogEntry dedupEnum "u0" c10Tx).map
        (fun r => (r.wafLog.timestamp, r.securityEvent.timestamp))
      = some (none, none) :=
  c10_unparseable_timestamp_still_ingested.2.2.2 c10Tx dedupEnum "u0"
    (by simp [c10Tx, txPlain]) rfl rfl (by decide)

end Waf
